import Mathlib

/-!
Verification of the padloc server request-mediation core
(packages/core/src/server.ts) against its natural-language specification.

The TypeScript controller methods are shallowly embedded as pure Lean
functions.  Stateful storage access is modelled by explicit state passing
(a Storage record of entity lists, saved entities upserted by id) and
fallible operations return Except ErrorCode.  External collaborators that
live outside the source file under audit (the SRP arithmetic, the
authenticator providers, the provisioning engine, request-signature
verification) are passed in as explicit function or data parameters, so
every theorem quantifies over their behaviour.
-/

namespace Padloc

/-- Error codes from error.ts that server.ts raises (the error taxonomy of
the spec, section 7). Only the constructors used by the embedded
operations are listed. -/
inductive ErrorCode where
  | INVALID_SESSION
  | SESSION_EXPIRED
  | INVALID_REQUEST
  | MAX_REQUEST_AGE_EXCEEDED
  | NOT_FOUND
  | BAD_REQUEST
  | OUTDATED_REVISION
  | INVALID_CREDENTIALS
  | INSUFFICIENT_PERMISSIONS
  | PROVISIONING_NOT_ALLOWED
  | PROVISIONING_QUOTA_EXCEEDED
  | AUTHENTICATION_FAILED
  | AUTHENTICATION_REQUIRED
  | ACCOUNT_EXISTS
  | NOT_SUPPORTED
  deriving DecidableEq, Repr

/-- Auth request purposes (auth.ts enum AuthPurpose, as consumed by
server.ts). -/
inductive AuthPurpose where
  | Signup
  | Login
  | Recover
  | GetLegacyData
  | AccessKeyStore
  | TestAuthenticator
  deriving DecidableEq, Repr

/-- Authenticator types (auth.ts enum AuthType, as consumed by server.ts). -/
inductive AuthType where
  | Email
  | Totp
  | WebAuthnPlatform
  | WebAuthnPortable
  | PublicKey
  deriving DecidableEq, Repr

/-- Render an AuthType the way the ad hoc authenticator id interpolation in
the private helper onewould (the exact rendering is irrelevant to every claim). -/
def AuthType.str : AuthType → String
  | .Email => "email"
  | .Totp => "totp"
  | .WebAuthnPlatform => "webauthn_platform"
  | .WebAuthnPortable => "webauthn_portable"
  | .PublicKey => "public_key"

/-- Authenticator status (auth.ts enum AuthenticatorStatus). -/
inductive AuthenticatorStatus where
  | Registering
  | Active
  | Revoked
  deriving DecidableEq, Repr

/-- Auth request status (auth.ts enum AuthRequestStatus). -/
inductive AuthRequestStatus where
  | Started
  | Verified
  | Canceled
  deriving DecidableEq, Repr

/-- Account status on the Auth record (auth.ts enum AccountStatus). -/
inductive AccountStatus where
  | Unregistered
  | Active
  | Blocked
  | Deleted
  deriving DecidableEq, Repr

/-- Organization member roles. Modelled from the spec: role hierarchy per
organization is Owner, Admin, Member, plus a Suspended state (spec 4.4);
the Org class itself (org.ts) is not part of the audited source. -/
inductive OrgRole where
  | Owner
  | Admin
  | Member
  | Suspended
  deriving DecidableEq, Repr

/-- Provisioning status consumed from the external provisioning engine
(spec 4.5 and 6: active/eligible vs frozen vs other ineligible states). -/
inductive ProvisioningStatus where
  | Active
  | Frozen
  | Suspended
  | Unprovisioned
  deriving DecidableEq, Repr

/-- A registered multi-factor authenticator (the fields of auth.ts
Authenticator that server.ts reads: id, type, purposes, status). -/
structure Authenticator where
  id : String
  type : AuthType
  purposes : List AuthPurpose
  status : AuthenticatorStatus
  lastUsed : Option Int := none
  deriving DecidableEq, Repr

/-- A pending or verified auth request (the fields of auth.ts AuthRequest
that server.ts reads and writes). -/
structure AuthRequest where
  id : String
  authenticatorId : String
  type : AuthType
  purpose : AuthPurpose
  token : String
  device : Option String := none
  status : AuthRequestStatus := .Started
  tries : Nat := 0
  verified : Option Int := none
  deriving DecidableEq, Repr

/-- A pending SRP handshake stored on the Auth record. The SRP arithmetic
lives in srp.ts, outside the audited source; the state is opaque here. -/
structure SRPSession where
  id : String
  state : String
  deriving DecidableEq, Repr

/-- Denormalized session info kept in Auth.sessions. Modelled from the
spec: active sessions are stored as denormalized info, not the secret key
(spec section 3, Auth record). -/
structure SessionInfo where
  id : String
  account : String
  device : Option String := none
  lastUsed : Int := 0
  deriving DecidableEq, Repr

/-- A full session entity (the fields of session.ts Session that server.ts
reads and writes; the signing key is optional because server.ts deletes it
from the outbound object). -/
structure Session where
  id : String
  account : String
  created : Int := 0
  lastUsed : Int := 0
  updated : Int := 0
  expires : Option Int := none
  device : Option String := none
  lastLocation : Option String := none
  key : Option String := none
  deriving DecidableEq, Repr

/-- The denormalized info of a session, as upserted into Auth.sessions.
Modelled from the spec: the info omits the signing key. -/
def Session.info (s : Session) : SessionInfo :=
  { id := s.id, account := s.account, device := s.device, lastUsed := s.lastUsed }

/-- Reference to a pending org invite stored on the invitee Auth record. -/
structure InviteRef where
  id : String
  orgId : String
  orgName : String
  deriving DecidableEq, Repr

/-- The per-email authentication record (the fields of auth.ts Auth that
server.ts reads and writes). Trusted devices are represented by their ids. -/
structure Auth where
  email : String
  account : Option String := none
  accountStatus : AccountStatus := .Unregistered
  verifier : Option String := none
  keyParams : Option String := none
  authenticators : List Authenticator := []
  authRequests : List AuthRequest := []
  srpSessions : List SRPSession := []
  sessions : List SessionInfo := []
  trustedDevices : List String := []
  mfaOrder : List String := []
  invites : List InviteRef := []
  deriving DecidableEq, Repr

/-- Cached org membership entry on an Account. -/
structure OrgRef where
  id : String
  name : String := ""
  revision : String := ""
  deriving DecidableEq, Repr

/-- An account entity (the fields of account.ts Account that server.ts
reads and writes; opaque payloads are plain strings). -/
structure Account where
  id : String
  email : String
  name : String := ""
  publicKey : String := ""
  keyParams : String := ""
  encryptionParams : String := ""
  encryptedData : String := ""
  revision : String := ""
  mainVault : String := ""
  mainVaultRevision : String := ""
  orgs : List OrgRef := []
  updated : Int := 0
  deriving DecidableEq, Repr

/-- An organization member entry. -/
structure OrgMember where
  id : String
  email : String := ""
  name : String := ""
  role : OrgRole := .Member
  deriving DecidableEq, Repr

/-- An invite stored on an organization. -/
structure Invite where
  id : String
  email : String := ""
  accepted : Bool := false
  deriving DecidableEq, Repr

/-- Reference to a vault stored on an organization. -/
structure VaultRef where
  id : String
  name : String := ""
  revision : String := ""
  deriving DecidableEq, Repr

/-- An organization entity (the fields of org.ts Org that server.ts reads
and writes; crypto payloads are plain strings, groups are opaque). -/
structure Org where
  id : String
  name : String := ""
  owner : String := ""
  revision : String := ""
  publicKey : String := ""
  keyParams : String := ""
  encryptionParams : String := ""
  encryptedData : String := ""
  signingParams : String := ""
  accessors : String := ""
  members : List OrgMember := []
  groups : List String := []
  vaults : List VaultRef := []
  invites : List Invite := []
  minMemberUpdated : Int := 0
  updated : Int := 0
  deriving DecidableEq, Repr

/-- A vault entity (the fields of vault.ts Vault that server.ts reads and
writes). -/
structure Vault where
  id : String
  name : String := ""
  owner : String := ""
  org : Option String := none
  revision : String := ""
  keyParams : String := ""
  encryptionParams : String := ""
  accessors : String := ""
  encryptedData : String := ""
  created : Int := 0
  updated : Int := 0
  deriving DecidableEq, Repr

/-- Membership test on an organization by account id. Modelled from the
spec: an account is a member when it appears in the member list (spec 3,
Org; org.ts is not part of the audited source). -/
def Org.isMemberId (o : Org) (accountId : String) : Bool :=
  o.members.any fun m => m.id == accountId

/-- Owner-role test. Modelled from the spec: the Owner role at the top of
the role hierarchy (spec 4.4). -/
def Org.isOwnerId (o : Org) (accountId : String) : Bool :=
  o.members.any fun m => m.id == accountId && m.role == OrgRole.Owner

/-- Admin-role test. Modelled from the spec: Owner is above Admin in the
role hierarchy, so owners pass the admin test (spec 4.4). -/
def Org.isAdminId (o : Org) (accountId : String) : Bool :=
  o.members.any fun m => m.id == accountId && (m.role == OrgRole.Owner || m.role == OrgRole.Admin)

/-- Suspension test. Modelled from the spec: Suspended is a role state that
revokes both read and write (spec 4.4). -/
def Org.isSuspendedId (o : Org) (accountId : String) : Bool :=
  o.members.any fun m => m.id == accountId && m.role == OrgRole.Suspended

/-- Lookup of a member entry by account id (org.ts getMember as consumed by
server.ts; modelled from the spec member list). -/
def Org.getMemberId (o : Org) (accountId : String) : Option OrgMember :=
  o.members.find? fun m => m.id == accountId

/-- Lookup of an invite by id (org.ts getInvite as consumed by server.ts). -/
def Org.getInviteId (o : Org) (inviteId : String) : Option Invite :=
  o.invites.find? fun i => i.id == inviteId

/-- JavaScript Array.prototype.findIndex, with the absent case rendered as
none instead of the sentinel -1. -/
def jsFindIndex (p : α → Bool) : List α → Option Nat
  | [] => none
  | a :: rest =>
    if p a then some 0 else
      match jsFindIndex p rest with
      | some i => some (i + 1)
      | none => none

/-- JavaScript arr.splice(i, 1) for the two shapes server.ts produces: a
nonnegative index (found) removes the element at that index, and the
sentinel -1 (not found) starts at max(length - 1, 0) and so removes the
final element of a nonempty list and nothing from an empty one. -/
def spliceRemoveOne (l : List α) : Option Nat → List α
  | some i => l.eraseIdx i
  | none => l.eraseIdx (l.length - 1)

/-- Removal of the first element satisfying a predicate, used to state what
a findIndex-then-splice pair computes. -/
def removeFirst (p : α → Bool) : List α → List α
  | [] => []
  | a :: rest => if p a then rest else a :: removeFirst p rest

/-- Upsert into an entity list keyed by a string key: replace the first
entry with the same key, append otherwise. This models storage.save on the
entity store facade (save is atomic per entity, keyed by id). -/
def upsertBy (key : α → String) (a : α) : List α → List α
  | [] => [a]
  | b :: rest => if key b == key a then a :: rest else b :: upsertBy key a rest

/-- The entity store facade (spec section 6): typed lists keyed by id,
get modelled as find?, save as upsertBy. -/
structure Storage where
  accounts : List Account := []
  auths : List Auth := []
  sessions : List Session := []
  orgs : List Org := []
  vaults : List Vault := []
  deriving DecidableEq, Repr

/-- Storage get for sessions. -/
def Storage.getSession (st : Storage) (id : String) : Option Session :=
  st.sessions.find? fun s => s.id == id

/-- Storage get for accounts. -/
def Storage.getAccount (st : Storage) (id : String) : Option Account :=
  st.accounts.find? fun a => a.id == id

/-- Storage save for sessions. -/
def Storage.saveSession (st : Storage) (s : Session) : Storage :=
  { st with sessions := upsertBy Session.id s st.sessions }

/-- Storage save for accounts. -/
def Storage.saveAccount (st : Storage) (a : Account) : Storage :=
  { st with accounts := upsertBy Account.id a st.accounts }

/-- Storage save for auth records (auth records are keyed by an id derived
from the email; the email itself serves as the key here). -/
def Storage.saveAuth (st : Storage) (a : Auth) : Storage :=
  { st with auths := upsertBy Auth.email a st.auths }

/-- The private auth-lookup helper of the controller (server.ts lines
1638-1667): fetch the Auth record for an email, or create a fresh
unregistered one when none exists. The legacy-key migration branch only
changes which storage key the same record is found under and is absorbed
into the single lookup. This never fails. -/
def getAuthRecord (auths : List Auth) (email : String) : Auth :=
  match auths.find? (fun a => a.email == email) with
  | some a => a
  | none => { email := email }

/-- The auth header of an incoming request: session id and timestamp
(transport.ts as consumed by server.ts; the signature itself is checked by
the external verify collaborator). -/
structure RequestAuth where
  session : String
  time : Int
  deriving DecidableEq, Repr

/-- An incoming request, reduced to the parts Controller.authenticate
reads. -/
structure Request where
  auth : Option RequestAuth := none
  location : Option String := none
  deriving DecidableEq, Repr

/-- The expiry test of Controller.authenticate: session.expires is set and
lies in the past. -/
def sessionExpired (expires : Option Int) (now : Int) : Bool :=
  match expires with
  | some e => e < now
  | none => false

/-- Controller.authenticate (server.ts lines 149-210). Guard chain: no
auth header leaves the context anonymous; an unknown session id fails
INVALID_SESSION (the storage NOT_FOUND is caught and translated); an
expired session fails SESSION_EXPIRED; a bad signature fails
INVALID_REQUEST (the signature check session.verify lives in session.ts
and is passed in as the verify parameter); a request whose age
now - header.time exceeds maxRequestAge fails MAX_REQUEST_AGE_EXCEEDED.
On success the session metadata is refreshed, its info upserted into
Auth.sessions (replace at the found index, else push), and session,
account and auth are saved. -/
def authenticate (maxRequestAge : Int) (now : Int) (verify : Session → Bool)
    (device : Option String) (st : Storage) (req : Request) :
    Except ErrorCode (Option (Session × Account × Auth) × Storage) :=
  match req.auth with
  | none => .ok (none, st)
  | some reqAuth =>
    match st.getSession reqAuth.session with
    | none => .error .INVALID_SESSION
    | some session =>
      if sessionExpired session.expires now then
        .error .SESSION_EXPIRED
      else if ¬ verify session then
        .error .INVALID_REQUEST
      else if now - reqAuth.time > maxRequestAge then
        .error .MAX_REQUEST_AGE_EXCEEDED
      else
        match st.getAccount session.account with
        | none => .error .NOT_FOUND
        | some account =>
          let auth := getAuthRecord st.auths account.email
          let session := { session with
            lastUsed := now, device := device, lastLocation := req.location, updated := now }
          let auth := { auth with
            sessions :=
              match jsFindIndex (fun s => s.id == session.id) auth.sessions with
              | some i => auth.sessions.set i session.info
              | none => auth.sessions ++ [session.info] }
          let st := ((st.saveSession session).saveAccount account).saveAuth auth
          .ok (some (session, account, auth), st)

/-- The two values the external SRP server (srp.ts) derives once the
client public value A is applied to a pending handshake state: the
expected client proof M1 and the shared session key K. -/
structure SRPFuns where
  M1 : SRPSession → String → String
  K : SRPSession → String → String

/-- Constant-time comparison from encoding.ts. Modelled from the spec: a
constant-time comparison primitive, semantically plain equality of the
compared values. -/
def equalCT (a b : String) : Bool := a == b

/-- Parameters of createSession (api.ts CreateSessionParams). -/
structure CreateSessionParams where
  account : String
  srpId : String
  A : String
  M : String
  addTrustedDevice : Bool := false
  deriving DecidableEq, Repr

/-- The session object minted by the success path of createSession
(server.ts lines 610-615): fresh id, creation time, owning account,
device, and the negotiated shared key K. -/
def mintedSession (srp : SRPFuns) (newSessionId : String) (now : Int)
    (device : Option String) (p : CreateSessionParams)
    (srpState : SRPSession) : Session :=
  { id := newSessionId, created := now, account := p.account,
    device := device, key := some (srp.K srpState p.A) }

/-- The auth-record mutation of the success path of createSession
(server.ts lines 617-621): push the session info onto the active list and
filter the consumed handshake out of the pending list. -/
def createSessionAuthUpdate (auth : Auth) (session : Session)
    (srpState : SRPSession) : Auth :=
  { auth with
    sessions := auth.sessions ++ [session.info],
    srpSessions := auth.srpSessions.filter fun s => s.id != srpState.id }

/-- The trusted-device mutation of the success path of createSession
(server.ts lines 627-633): add the requesting device when present, not
yet trusted (under equalCT), and requested. -/
def createSessionTrustDevice (auth : Auth) (device : Option String)
    (add : Bool) : Auth :=
  match device with
  | some d =>
    if !(auth.trustedDevices.any fun td => equalCT td d) && add then
      { auth with trustedDevices := auth.trustedDevices ++ [d] }
    else auth
  | none => auth

/-- Controller.createSession (server.ts lines 581-646). Fetches the
account (a missing account propagates the storage NOT_FOUND), resolves the
Auth record, finds the pending SRP handshake by srpId (missing gives
INVALID_CREDENTIALS), compares the client proof M against the expected M1
with equalCT (mismatch gives INVALID_CREDENTIALS), and on success mints a
session keyed with the negotiated K, pushes its info onto Auth.sessions,
filters the consumed handshake out of Auth.srpSessions, saves session and
account, optionally adds the device to the trusted list, saves the auth
record, and finally deletes the key field from the outbound session
object. The result is paired with the (possibly updated) storage so that
the failure paths visibly leave the stored state untouched. -/
def createSession (srp : SRPFuns) (newSessionId : String) (now : Int)
    (device : Option String) (st : Storage) (p : CreateSessionParams) :
    Except ErrorCode Session × Storage :=
  match st.getAccount p.account with
  | none => (.error .NOT_FOUND, st)
  | some acc =>
    let auth := getAuthRecord st.auths acc.email
    match auth.srpSessions.find? (fun s => s.id == p.srpId) with
    | none => (.error .INVALID_CREDENTIALS, st)
    | some srpState =>
      if ¬ equalCT p.M (srp.M1 srpState p.A) then
        (.error .INVALID_CREDENTIALS, st)
      else
        let session := mintedSession srp newSessionId now device p srpState
        let auth := createSessionAuthUpdate auth session srpState
        let st := (st.saveSession session).saveAccount acc
        let auth := createSessionTrustDevice auth device p.addTrustedDevice
        let st := st.saveAuth auth
        let outSession := { session with key := none }
        (.ok outSession, st)

/-- Controller.revokeSession (server.ts lines 648-663). The session with
the given id is fetched from storage (a miss propagates NOT_FOUND); a
session owned by another account fails INSUFFICIENT_PERMISSIONS; then the
id is looked up in Auth.sessions with findIndex and the result, found or
not, is passed straight to splice(i, 1). The session entity is deleted
and the auth record saved; the returned pair is the updated auth record
and storage. -/
def revokeSession (account : Account) (auth : Auth) (st : Storage)
    (id : String) : Except ErrorCode (Auth × Storage) :=
  match st.getSession id with
  | none => .error .NOT_FOUND
  | some session =>
    if ¬ session.account == account.id then
      .error .INSUFFICIENT_PERMISSIONS
    else
      let auth := { auth with
        sessions := spliceRemoveOne auth.sessions
          (jsFindIndex (fun s => s.id == id) auth.sessions) }
      let st := { st with sessions := st.sessions.filter fun s => s.id != session.id }
      .ok (auth, st.saveAuth auth)

/-- The auth record produced by the success path of revokeSession: the
findIndex result, found or sentinel, passed to splice. -/
def revokeSessionResultAuth (auth : Auth) (id : String) : Auth :=
  { auth with
    sessions := spliceRemoveOne auth.sessions
      (jsFindIndex (fun s => s.id == id) auth.sessions) }

/-- The storage produced by the success path of revokeSession: the session
entity deleted and the updated auth record saved. -/
def revokeSessionResultStorage (auth : Auth) (st : Storage) (session : Session)
    (id : String) : Storage :=
  Storage.saveAuth
    { st with sessions := st.sessions.filter fun s => s.id != session.id }
    (revokeSessionResultAuth auth id)

/-- Controller.deleteAuthenticator (server.ts lines 360-374): reject when
at most one authenticator remains (BAD_REQUEST), then look the id up
(NOT_FOUND when absent) and splice it out. Success returns the updated
Auth record to be saved; an error means nothing is saved. -/
def deleteAuthenticator (auth : Auth) (id : String) : Except ErrorCode Auth :=
  if auth.authenticators.length ≤ 1 then
    .error .BAD_REQUEST
  else
    match jsFindIndex (fun a => a.id == id) auth.authenticators with
    | none => .error .NOT_FOUND
    | some index => .ok { auth with authenticators := auth.authenticators.eraseIdx index }

/-- Account-level entitlement state from the external provisioning engine
(spec 6). -/
structure AccountProvisioning where
  status : ProvisioningStatus := .Active
  quotaOrgs : Int := -1
  deriving DecidableEq, Repr

/-- Org-level entitlement state from the external provisioning engine. -/
structure OrgProvisioning where
  orgId : String
  status : ProvisioningStatus := .Active
  quotaMembers : Int := -1
  quotaGroups : Int := -1
  quotaVaults : Int := -1
  deriving DecidableEq, Repr

/-- The provisioning snapshot returned by getProvisioning for a caller. -/
structure Provisioning where
  account : AccountProvisioning := {}
  orgs : List OrgProvisioning := []
  deriving DecidableEq, Repr

/-- Parameters of startAuthRequest (api.ts StartAuthRequestParams);
optional fields are undefined-able in the source and Option here. -/
structure StartAuthRequestParams where
  email : String
  authenticatorId : Option String := none
  authenticatorIndex : Option Nat := none
  type : Option AuthType := none
  supportedTypes : Option (List AuthType) := none
  purpose : AuthPurpose
  deriving DecidableEq, Repr

/-- The id, type and supportedTypes conjuncts of the authenticator filter
in startAuthRequest (server.ts lines 392-394): each optional selector is
vacuously true when undefined. -/
def selectorFilters (p : StartAuthRequestParams) (m : Authenticator) : Bool :=
  (match p.authenticatorId with | none => true | some aid => m.id == aid) &&
  (match p.type with | none => true | some t => m.type == t) &&
  (match p.supportedTypes with | none => true | some ts => ts.contains m.type)

/-- The full authenticator filter of startAuthRequest (server.ts lines
390-397): selector filters, then the purpose conjunct which is skipped
exactly for the TestAuthenticator purpose, then the active-status
conjunct. -/
def authenticatorSelectable (p : StartAuthRequestParams) (m : Authenticator) : Bool :=
  selectorFilters p m &&
  (p.purpose == AuthPurpose.TestAuthenticator || m.purposes.contains p.purpose) &&
  m.status == AuthenticatorStatus.Active

/-- The ad hoc authenticator the private helper creates for each default
auth type (server.ts lines 1626-1636): active, bearing the four standard
purposes, with a synthetic id derived from email and type. -/
def adHocAuthenticator (email : String) (t : AuthType) : Authenticator :=
  { id := "ad_hoc_" ++ email ++ "_" ++ t.str, type := t,
    purposes := [.Signup, .Login, .Recover, .GetLegacyData],
    status := .Active }

/-- The private helper listing all authenticators available to an Auth
record (server.ts lines 1614-1624): the registered ones followed by one ad
hoc authenticator per configured default auth type. -/
def allAuthenticators (defaultAuthTypes : List AuthType) (auth : Auth) : List Authenticator :=
  auth.authenticators ++ defaultAuthTypes.map (adHocAuthenticator auth.email)

/-- JavaScript Array.prototype.indexOf rendered with -1 for a missing
entry, as used by the mfaOrder comparator. -/
def jsIndexOf (l : List String) (x : String) : Int :=
  match jsFindIndex (fun y => y == x) l with
  | some i => (i : Int)
  | none => -1

/-- Stable insertion into a sorted list, keeping the inserted element in
front of elements it ties with. -/
def insertStable (le : α → α → Bool) (a : α) : List α → List α
  | [] => [a]
  | b :: t => if le a b then a :: b :: t else b :: insertStable le a t

/-- A stable sort modelling JavaScript Array.prototype.sort (stable since
ES2019); only the comparator and the resulting permutation matter to the
embedded operations. -/
def stableSort (le : α → α → Bool) : List α → List α
  | [] => []
  | a :: t => insertStable le a (stableSort le t)

/-- The available-authenticator list of startAuthRequest (server.ts lines
389-398): filter, then sort by the position of each id in the stored
mfaOrder preference list. -/
def availableAuthenticators (defaultAuthTypes : List AuthType) (auth : Auth)
    (p : StartAuthRequestParams) : List Authenticator :=
  stableSort (fun a b => jsIndexOf auth.mfaOrder a.id ≤ jsIndexOf auth.mfaOrder b.id)
    ((allAuthenticators defaultAuthTypes auth).filter (authenticatorSelectable p))

/-- The response of startAuthRequest (api.ts StartAuthRequestResponse). -/
structure StartAuthRequestResponse where
  id : String
  data : String
  token : String
  type : AuthType
  authenticatorId : String
  requestStatus : AuthRequestStatus
  deviceTrusted : Bool
  accountStatus : Option AccountStatus := none
  provisioning : Option ProvisioningStatus := none
  deriving DecidableEq, Repr

/-- Controller.startAuthRequest (server.ts lines 376-445). Resolves the
Auth record, filters and orders the available authenticators, picks the
one at authenticatorIndex (default 0, NOT_FOUND when absent), invokes the
provider initAuthRequest hook (passed in as initData, the provider
registry being external), creates the request — rewriting a Login purpose
to Signup when the account is not active —, computes deviceTrusted from
the trusted-device list, and for a Login-purpose request on a trusted
device immediately marks the request Verified and attaches account status
and the provisioning status supplied by the external provisioner. The
request is pushed onto the auth record, which is saved. The Bool in the
result records whether the provider initAuthRequest hook was invoked
during the run. -/
def startAuthRequest (defaultAuthTypes : List AuthType)
    (initData : Authenticator → String) (provAccount : AccountProvisioning)
    (newRequestId : String) (newToken : String) (now : Int)
    (device : Option String) (auths : List Auth) (p : StartAuthRequestParams) :
    Except ErrorCode (StartAuthRequestResponse × Auth) × Bool :=
  let auth := getAuthRecord auths p.email
  let available := availableAuthenticators defaultAuthTypes auth p
  match available[p.authenticatorIndex.getD 0]? with
  | none => (.error .NOT_FOUND, false)
  | some authenticator =>
    let request : AuthRequest :=
      { id := newRequestId, authenticatorId := authenticator.id,
        type := authenticator.type,
        purpose :=
          if p.purpose == AuthPurpose.Login && !(auth.accountStatus == AccountStatus.Active)
          then AuthPurpose.Signup else p.purpose,
        device := device, token := newToken }
    let responseData := initData authenticator
    let auth := { auth with
      authRequests := auth.authRequests ++ [request],
      authenticators := auth.authenticators.map fun a =>
        if a.id == authenticator.id then { a with lastUsed := some now } else a }
    let deviceTrusted :=
      match device with
      | some d => auth.trustedDevices.any fun id => id == d
      | none => false
    let response : StartAuthRequestResponse :=
      { id := request.id, data := responseData, token := request.token,
        type := request.type, authenticatorId := authenticator.id,
        requestStatus := request.status, deviceTrusted := deviceTrusted }
    if request.purpose == AuthPurpose.Login && deviceTrusted then
      let request := { request with verified := some now, status := .Verified }
      let response := { response with
        requestStatus := AuthRequestStatus.Verified,
        accountStatus := some auth.accountStatus,
        provisioning := some provAccount.status }
      let auth := { auth with
        authRequests := auth.authRequests.map fun r =>
          if r.id == request.id then request else r }
      (.ok (response, auth), true)
    else
      (.ok (response, auth), true)

/-- The payload fields updateAccount destructures from its Account
parameter (server.ts line 735). -/
structure AccountPayload where
  name : String := ""
  email : String := ""
  publicKey : String := ""
  keyParams : String := ""
  encryptionParams : String := ""
  encryptedData : String := ""
  revision : String := ""
  deriving DecidableEq, Repr

/-- Controller.updateAccount (server.ts lines 735-772). The revision
carried by the payload must equal the stored revision, else
OUTDATED_REVISION — this is the first check, before any comparison of the
content. On success the revision is regenerated, the payload fields are
assigned and the account saved. The cascaded member-name refresh on the
orgs of the account only touches other records and the messenger and is
outside this embedding. -/
def updateAccount (newRevision : String) (now : Int) (account : Account)
    (p : AccountPayload) : Except ErrorCode Account :=
  if ¬ p.revision == account.revision then
    .error .OUTDATED_REVISION
  else
    .ok { account with
      revision := newRevision, name := p.name, email := p.email,
      publicKey := p.publicKey, keyParams := p.keyParams,
      encryptionParams := p.encryptionParams, encryptedData := p.encryptedData,
      updated := now }

/-- The payload fields updateOrg destructures from its Org parameter
(server.ts lines 933-948). -/
structure OrgPayload where
  id : String
  name : String := ""
  publicKey : String := ""
  keyParams : String := ""
  encryptionParams : String := ""
  encryptedData : String := ""
  signingParams : String := ""
  accessors : String := ""
  members : List OrgMember := []
  groups : List String := []
  vaults : List VaultRef := []
  invites : List Invite := []
  revision : String := ""
  minMemberUpdated : Int := 0
  deriving DecidableEq, Repr

/-- The guards of updateOrg that precede its revision check (server.ts
lines 954-966): the caller must have a provisioning entry for the org and
that entry must not be frozen. -/
def updateOrgReachesRevisionCheck (prov : Provisioning) (orgId : String) : Prop :=
  ∃ op, prov.orgs.find? (fun o => o.orgId == orgId) = some op ∧
    op.status ≠ ProvisioningStatus.Frozen

/-- Controller.updateOrg (server.ts lines 933-1135), embedded over the
stored org record (the storage lookup by payload id is represented by the
org argument; a missing org propagates NOT_FOUND upstream of this
function). Guard chain in source order: missing org provisioning for the
caller fails PROVISIONING_NOT_ALLOWED; a frozen org provisioning fails
PROVISIONING_NOT_ALLOWED; a stale payload revision fails
OUTDATED_REVISION; a caller who is not an admin (nor the owner) fails
INSUFFICIENT_PERMISSIONS; a decreasing minMemberUpdated fails BAD_REQUEST;
membership, role, or invite changes by a non-owner fail
INSUFFICIENT_PERMISSIONS; exceeded member or group quotas fail
PROVISIONING_QUOTA_EXCEEDED. On success members, groups and vaults are
assigned, the owner-only fields are assigned for owners, and the metadata
update regenerates the revision. The side effects on other records
(invite emails, invitee auth bookkeeping, removed-member account cleanup,
vault metadata propagation) are outside this embedding; no claim inspects
them. -/
def updateOrg (prov : Provisioning) (account : Account) (org : Org)
    (newRevision : String) (now : Int) (p : OrgPayload) : Except ErrorCode Org :=
  match prov.orgs.find? (fun o => o.orgId == p.id) with
  | none => .error .PROVISIONING_NOT_ALLOWED
  | some orgProvisioning =>
    if orgProvisioning.status == ProvisioningStatus.Frozen then
      .error .PROVISIONING_NOT_ALLOWED
    else if ¬ p.revision == org.revision then
      .error .OUTDATED_REVISION
    else
      let isOwner := org.owner == account.id || org.isOwnerId account.id
      let isAdmin := isOwner || org.isAdminId account.id
      if ¬ isAdmin then
        .error .INSUFFICIENT_PERMISSIONS
      else if p.minMemberUpdated < org.minMemberUpdated then
        .error .BAD_REQUEST
      else
        let addedMembers := p.members.filter fun m => !(org.isMemberId m.id)
        let removedMembers := org.members.filter fun m =>
          !(p.members.any fun m2 => m2.id == m.id)
        let addedInvites := p.invites.filter fun i => (org.getInviteId i.id).isNone
        let removedInvites := org.invites.filter fun i =>
          !(p.invites.any fun i2 => i2.id == i.id)
        let membershipChanged :=
          !addedMembers.isEmpty || !removedMembers.isEmpty ||
          !addedInvites.isEmpty || !removedInvites.isEmpty ||
          p.members.any fun m =>
            match org.getMemberId m.id with
            | none => true
            | some member => member.role != m.role
        if !isOwner && membershipChanged then
          .error .INSUFFICIENT_PERMISSIONS
        else if !(orgProvisioning.quotaMembers == -1) &&
            orgProvisioning.quotaMembers < (p.members.length : Int) then
          .error .PROVISIONING_QUOTA_EXCEEDED
        else if !(orgProvisioning.quotaGroups == -1) &&
            orgProvisioning.quotaGroups < (p.groups.length : Int) then
          .error .PROVISIONING_QUOTA_EXCEEDED
        else
          let org := { org with members := p.members, groups := p.groups, vaults := p.vaults }
          let org :=
            if isOwner then
              { org with
                name := p.name, publicKey := p.publicKey,
                keyParams := p.keyParams, encryptionParams := p.encryptionParams,
                encryptedData := p.encryptedData, signingParams := p.signingParams,
                accessors := p.accessors, invites := p.invites,
                minMemberUpdated := p.minMemberUpdated }
            else org
          .ok { org with revision := newRevision, updated := now }

/-- Vault read and write permission computation (org.ts canRead and
canWrite as consumed by server.ts; spec 4.4 computes them from accessor
assignments layered on role, outside the audited source, so they are
passed in as parameters). -/
structure OrgAccess where
  canRead : Org → Vault → Account → Bool
  canWrite : Org → Vault → Account → Bool

/-- The payload fields updateVault destructures from its Vault parameter
(server.ts line 1190). -/
structure VaultPayload where
  id : String
  keyParams : String := ""
  encryptionParams : String := ""
  accessors : String := ""
  encryptedData : String := ""
  revision : String := ""
  deriving DecidableEq, Repr

/-- The guards of updateVault that precede its revision check, for the
org-owned case (server.ts lines 1193-1229): the org must resolve, the
caller must not be suspended, must be able to read (else the vault is
hidden as NOT_FOUND) and write, and the governing provisioning entry must
not be frozen. For a private vault the caller must own it and the account
provisioning must not be frozen. -/
def updateVaultReachesRevisionCheck (access : OrgAccess) (prov : Provisioning)
    (account : Account) (vault : Vault) (orgs : List Org) : Prop :=
  match vault.org with
  | none =>
    vault.owner = account.id ∧ prov.account.status ≠ ProvisioningStatus.Frozen
  | some orgId =>
    ∃ org, orgs.find? (fun o => o.id == orgId) = some org ∧
      org.isSuspendedId account.id = false ∧
      access.canRead org vault account = true ∧
      access.canWrite org vault account = true ∧
      (match prov.orgs.find? (fun o => o.orgId == org.id) with
       | some op => op.status
       | none => prov.account.status) ≠ ProvisioningStatus.Frozen

/-- Controller.updateVault (server.ts lines 1190-1265), embedded over the
stored vault record (the storage lookup by payload id is represented by
the vault argument). Guard chain in source order: a vault with an org
pointer whose org is missing propagates NOT_FOUND from storage; the
governing provisioning entry is the org one when present, else the
account one (the bare no-provisioning error is unreachable because the
account entry always exists); a suspended caller fails
INSUFFICIENT_PERMISSIONS; a caller without read access (or a private
vault not owned by the caller) is hidden behind NOT_FOUND; a reader
without write access fails INSUFFICIENT_PERMISSIONS; a frozen governing
entry fails PROVISIONING_NOT_ALLOWED; a stale payload revision fails
OUTDATED_REVISION. On success the payload fields are assigned, the
revision regenerated and the vault saved; the org metadata refresh and
the main-vault revision cache on the account touch other records and are
outside this embedding. -/
def updateVault (access : OrgAccess) (prov : Provisioning) (account : Account)
    (vault : Vault) (orgs : List Org) (newRevision : String) (now : Int)
    (p : VaultPayload) : Except ErrorCode Vault :=
  let orgResolved : Except ErrorCode (Option Org) :=
    match vault.org with
    | none => .ok none
    | some orgId =>
      match orgs.find? (fun o => o.id == orgId) with
      | none => .error .NOT_FOUND
      | some org => .ok (some org)
  match orgResolved with
  | .error e => .error e
  | .ok orgOpt =>
    let provStatus :=
      match orgOpt with
      | some org =>
        match prov.orgs.find? (fun o => o.orgId == org.id) with
        | some op => op.status
        | none => prov.account.status
      | none => prov.account.status
    if (match orgOpt with
        | some org => org.isSuspendedId account.id
        | none => false) then
      .error .INSUFFICIENT_PERMISSIONS
    else if (match orgOpt with
        | some org => ! access.canRead org vault account
        | none => ! (vault.owner == account.id)) then
      .error .NOT_FOUND
    else if (match orgOpt with
        | some org => ! access.canWrite org vault account
        | none => false) then
      .error .INSUFFICIENT_PERMISSIONS
    else if provStatus == ProvisioningStatus.Frozen then
      .error .PROVISIONING_NOT_ALLOWED
    else if ¬ p.revision == vault.revision then
      .error .OUTDATED_REVISION
    else
      .ok { vault with
        keyParams := p.keyParams, encryptionParams := p.encryptionParams,
        accessors := p.accessors, encryptedData := p.encryptedData,
        revision := newRevision, updated := now }

/-- Decidable equality for results, so that concrete runs of the embedded
operations can be settled by decide. -/
instance {ε α : Type} [DecidableEq ε] [DecidableEq α] : DecidableEq (Except ε α) :=
  fun x y =>
    match x, y with
    | .ok a, .ok b =>
      if h : a = b then .isTrue (by rw [h])
      else .isFalse (by intro hc; injection hc; exact h (by assumption))
    | .error a, .error b =>
      if h : a = b then .isTrue (by rw [h])
      else .isFalse (by intro hc; injection hc; exact h (by assumption))
    | .ok _, .error _ => .isFalse (by intro hc; exact Except.noConfusion hc)
    | .error _, .ok _ => .isFalse (by intro hc; exact Except.noConfusion hc)

/-! Concrete records used to instantiate the theorems below on explicit
inputs. -/

/-- A concrete account. -/
def exAccount : Account := { id := "acc1", email := "a@x.co" }

/-- A concrete stored session owned by exAccount whose id does not occur
in the denormalized session list of exAuthSessions. -/
def exSessionStray : Session := { id := "s9", account := "acc1" }

/-- Concrete denormalized session info entries. -/
def exSI1 : SessionInfo := { id := "s1", account := "acc1" }

/-- A second concrete denormalized session info entry. -/
def exSI2 : SessionInfo := { id := "s2", account := "acc1" }

/-- A concrete Auth record with two denormalized session entries. -/
def exAuthSessions : Auth := { email := "a@x.co", sessions := [exSI1, exSI2] }

/-- A concrete storage holding only the stray session. -/
def exStorageRevoke : Storage := { sessions := [exSessionStray] }

/-- A concrete stored session for authenticate, without expiry. -/
def exSessionAuth : Session := { id := "sess1", account := "acc1" }

/-- A concrete storage for authenticate runs. -/
def exStorageAuth : Storage :=
  { sessions := [exSessionAuth], accounts := [exAccount] }

/-- A request carrying a timestamp far in the future of now = 0. -/
def exReqFuture : Request := { auth := some { session := "sess1", time := 3600001 } }

/-- A request carrying timestamp 0. -/
def exReqZero : Request := { auth := some { session := "sess1", time := 0 } }

/-- A request carrying timestamp -1. -/
def exReqStale : Request := { auth := some { session := "sess1", time := -1 } }

/-- A concrete pending SRP handshake. -/
def exSRPState : SRPSession := { id := "srp1", state := "x" }

/-- A concrete Auth record with one pending handshake. -/
def exAuthSRP : Auth := { email := "a@x.co", srpSessions := [exSRPState] }

/-- A concrete storage for createSession runs. -/
def exStorageSRP : Storage := { accounts := [exAccount], auths := [exAuthSRP] }

/-- Concrete SRP derivations: the expected proof is m1 and the shared key
k1 whatever the handshake state and client value. -/
def exSRPFuns : SRPFuns := { M1 := fun _ _ => "m1", K := fun _ _ => "k1" }

/-- createSession parameters with the correct proof. -/
def exParamsGood : CreateSessionParams :=
  { account := "acc1", srpId := "srp1", A := "aa", M := "m1" }

/-- createSession parameters with a forged proof. -/
def exParamsBadProof : CreateSessionParams :=
  { account := "acc1", srpId := "srp1", A := "aa", M := "wrong" }

/-- createSession parameters naming a handshake id that is not pending. -/
def exParamsNoSrp : CreateSessionParams :=
  { account := "acc1", srpId := "nope", A := "aa", M := "m1" }

/-- A concrete active email authenticator. -/
def exA1 : Authenticator :=
  { id := "a1", type := .Email, purposes := [.Login], status := .Active }

/-- A concrete active totp authenticator. -/
def exA2 : Authenticator :=
  { id := "a2", type := .Totp, purposes := [.Login], status := .Active }

/-- A concrete Auth record holding exactly one authenticator. -/
def exAuthOne : Auth := { email := "a@x.co", authenticators := [exA1] }

/-- A concrete Auth record holding exactly two authenticators. -/
def exAuthTwo : Auth := { email := "b@x.co", authenticators := [exA1, exA2] }

/-- Projection of a startAuthRequest result onto its response, used to
state properties of concrete runs without existential quantifiers. -/
def okResponse? (r : Except ErrorCode (StartAuthRequestResponse × Auth)) :
    Option StartAuthRequestResponse :=
  match r with
  | .ok (resp, _) => some resp
  | .error _ => none

/-- A concrete account whose stored content the C1 payloads mirror. -/
def exAccC1 : Account :=
  { id := "acc1", email := "a@x.co", name := "nm", publicKey := "pk",
    keyParams := "kp", encryptionParams := "ep", encryptedData := "ed",
    revision := "r2" }

/-- An updateAccount payload byte-identical to the stored content of
exAccC1 except for carrying the stale revision r1. -/
def exPayloadAccC1 : AccountPayload :=
  { name := "nm", email := "a@x.co", publicKey := "pk", keyParams := "kp",
    encryptionParams := "ep", encryptedData := "ed", revision := "r1" }

/-- A concrete owner member entry. -/
def exMemberOwner : OrgMember := { id := "acc1", role := .Owner }

/-- A concrete org owned by acc1 at revision r2. -/
def exOrgC1 : Org :=
  { id := "org1", owner := "acc1", revision := "r2", members := [exMemberOwner] }

/-- An updateOrg payload identical to the stored exOrgC1 content except
for the stale revision r1. -/
def exOrgPayloadC1 : OrgPayload :=
  { id := "org1", revision := "r1", members := [exMemberOwner] }

/-- Provisioning for exOrgC1, active with unlimited quotas. -/
def exProvC1 : Provisioning := { orgs := [{ orgId := "org1" }] }

/-- A concrete private vault of acc1 at revision r2. -/
def exVaultC1 : Vault := { id := "v1", owner := "acc1", revision := "r2" }

/-- An updateVault payload identical to the stored exVaultC1 content
except for the stale revision r1. -/
def exVaultPayloadC1 : VaultPayload := { id := "v1", revision := "r1" }

/-- An access computation that grants every read and write, so that the
revision guard is what decides. -/
def exAccessAll : OrgAccess :=
  { canRead := fun _ _ _ => true, canWrite := fun _ _ _ => true }

/-- A concrete second account that is neither a member nor the owner of
exOrgC1. -/
def exOutsider : Account := { id := "acc2", email := "b@x.co" }

/-- A concrete authenticator allowed for Login. -/
def exAuthenticatorC6 : Authenticator :=
  { id := "a1", type := .Email, purposes := [.Login], status := .Active }

/-- A concrete active Auth record trusting device d1. -/
def exAuthC6 : Auth :=
  { email := "a@x.co", account := some "acc1", accountStatus := .Active,
    authenticators := [exAuthenticatorC6], trustedDevices := ["d1"] }

/-- startAuthRequest parameters for a Login request. -/
def exParamsC6 : StartAuthRequestParams := { email := "a@x.co", purpose := .Login }

/-- The concrete startAuthRequest run from trusted device d1: no default
auth types, a provider hook returning pdata, active account provisioning. -/
def exRunC6 : Except ErrorCode (StartAuthRequestResponse × Auth) × Bool :=
  startAuthRequest [] (fun _ => "pdata") {} "req1" "tok1" 0 (some "d1")
    [exAuthC6] exParamsC6

/-! Helper lemmas about the JavaScript-shaped list operations. -/

theorem jsFindIndex_some_mem (p : α → Bool) :
    ∀ (l : List α) (i : Nat), jsFindIndex p l = some i → ∃ x ∈ l, p x = true := by
  intro l
  induction l with
  | nil => intro i h; simp [jsFindIndex] at h
  | cons a t ih =>
    intro i h
    by_cases hp : p a
    · exact ⟨a, List.mem_cons_self a t, hp⟩
    · cases hrec : jsFindIndex p t with
      | none => simp [jsFindIndex, hp, hrec] at h
      | some j =>
        obtain ⟨x, hx, hpx⟩ := ih j hrec
        exact ⟨x, List.mem_cons_of_mem a hx, hpx⟩

theorem jsFindIndex_eq_none_iff (p : α → Bool) (l : List α) :
    jsFindIndex p l = none ↔ ∀ x ∈ l, p x = false := by
  induction l with
  | nil => simp [jsFindIndex]
  | cons a t ih =>
    by_cases h : p a
    · simp [jsFindIndex, h]
    · cases hrec : jsFindIndex p t with
      | none =>
        have ht := ih.mp hrec
        constructor
        · intro _ x hx
          rcases List.mem_cons.mp hx with hxa | hxt
          · subst hxa
            simpa using h
          · exact ht x hxt
        · intro _
          simp [jsFindIndex, h, hrec]
      | some j =>
        constructor
        · intro hc
          rw [show jsFindIndex p (a :: t) = some (j + 1) by simp [jsFindIndex, h, hrec]] at hc
          exact absurd hc (by simp)
        · intro hall
          obtain ⟨x, hx, hpx⟩ := jsFindIndex_some_mem p t j hrec
          rw [hall x (List.mem_cons_of_mem a hx)] at hpx
          exact absurd hpx (by simp)

theorem jsFindIndex_lt_length (p : α → Bool) :
    ∀ (l : List α) (i : Nat), jsFindIndex p l = some i → i < l.length := by
  intro l
  induction l with
  | nil => intro i h; simp [jsFindIndex] at h
  | cons a t ih =>
    intro i h
    by_cases hp : p a
    · simp only [jsFindIndex, hp, if_true, Option.some.injEq] at h
      subst h
      simp only [List.length_cons]
      omega
    · cases hrec : jsFindIndex p t with
      | none => simp [jsFindIndex, hp, hrec] at h
      | some j =>
        simp [jsFindIndex, hp, hrec] at h
        have := ih j hrec
        simp only [List.length_cons]
        omega

theorem eraseIdx_jsFindIndex_eq_removeFirst (p : α → Bool) :
    ∀ (l : List α) (i : Nat), jsFindIndex p l = some i →
      l.eraseIdx i = removeFirst p l := by
  intro l
  induction l with
  | nil => intro i h; simp [jsFindIndex] at h
  | cons a t ih =>
    intro i h
    by_cases hp : p a
    · simp only [jsFindIndex, hp, if_true, Option.some.injEq] at h
      subst h
      simp [removeFirst, hp]
    · cases hrec : jsFindIndex p t with
      | none => simp [jsFindIndex, hp, hrec] at h
      | some j =>
        simp [jsFindIndex, hp, hrec] at h
        subst h
        simp [removeFirst, hp, List.eraseIdx_cons_succ, ih j hrec]

theorem spliceRemoveOne_none_eq_dropLast (l : List α) :
    spliceRemoveOne l none = l.dropLast := by
  cases l with
  | nil => rfl
  | cons a t =>
    show (a :: t).eraseIdx ((a :: t).length - 1) = (a :: t).dropLast
    rw [List.dropLast_eq_eraseIdx (i := (a :: t).length - 1)]
    simp

theorem find?_upsertBy (key : α → String) (a : α) (l : List α) (k : String)
    (hk : key a = k) : ((upsertBy key a l).find? fun x => key x == k) = some a := by
  subst hk
  induction l with
  | nil => simp [upsertBy, List.find?]
  | cons b t ih =>
    simp only [upsertBy]
    by_cases h : key b == key a
    · rw [if_pos h]
      exact List.find?_cons_of_pos _ (by simp)
    · have hne : ¬ key b = key a := by simpa using h
      rw [if_neg h, List.find?_cons_of_neg _ (by simp [hne])]
      exact ih

/-- C7: deleting the only authenticator of an Auth record fails (with
BAD_REQUEST, so nothing is saved and the stored list is unchanged), while
deleting one of two authenticators whose id names one of them succeeds
and leaves exactly one authenticator. -/
theorem C7_deleteAuthenticator_last_vs_pair (auth1 auth2 : Auth) (id1 id2 : String)
    (h1 : auth1.authenticators.length = 1)
    (h2 : auth2.authenticators.length = 2)
    (h3 : ∃ a ∈ auth2.authenticators, a.id = id2) :
    deleteAuthenticator auth1 id1 = .error .BAD_REQUEST ∧
    ∃ result, deleteAuthenticator auth2 id2 = .ok result ∧
      result.authenticators.length = 1 := by
  constructor
  · unfold deleteAuthenticator
    rw [h1]
    simp
  · have hfind : jsFindIndex (fun a => a.id == id2) auth2.authenticators ≠ none := by
      intro hnone
      rw [jsFindIndex_eq_none_iff] at hnone
      obtain ⟨a, ha, haid⟩ := h3
      have := hnone a ha
      simp [haid] at this
    obtain ⟨i, hi⟩ := Option.ne_none_iff_exists'.mp hfind
    refine ⟨{ auth2 with authenticators := auth2.authenticators.eraseIdx i }, ?_, ?_⟩
    · unfold deleteAuthenticator
      rw [h2, hi]
      simp
    · have hlt := jsFindIndex_lt_length _ _ _ hi
      simp only [List.length_eraseIdx_of_lt hlt, h2]

/-- Witness for C7 at a concrete single-authenticator record and a
concrete two-authenticator record. -/
theorem C7_witness :
    deleteAuthenticator exAuthOne "zz" = .error .BAD_REQUEST ∧
    ∃ result, deleteAuthenticator exAuthTwo "a1" = .ok result ∧
      result.authenticators.length = 1 :=
  C7_deleteAuthenticator_last_vs_pair exAuthOne exAuthTwo "zz" "a1"
    (by decide) (by decide) ⟨exA1, by decide, rfl⟩

/-- C8: in deleteAuthenticator the last-authenticator guard runs before
the id lookup — a record with at most one authenticator always fails
BAD_REQUEST, whatever the id, and NOT_FOUND arises exactly when the
record has two or more authenticators and none carries the id. -/
theorem C8_deleteAuthenticator_guard_before_lookup (auth : Auth) (id : String) :
    (auth.authenticators.length ≤ 1 → deleteAuthenticator auth id = .error .BAD_REQUEST) ∧
    (deleteAuthenticator auth id = .error .NOT_FOUND ↔
      2 ≤ auth.authenticators.length ∧ ∀ a ∈ auth.authenticators, a.id ≠ id) := by
  constructor
  · intro h
    unfold deleteAuthenticator
    simp [h]
  · unfold deleteAuthenticator
    by_cases h : auth.authenticators.length ≤ 1
    · simp only [h, if_true]
      constructor
      · intro he
        exact absurd he (by simp)
      · intro ⟨h2, _⟩
        omega
    · simp only [h, if_false]
      cases hfind : jsFindIndex (fun a => a.id == id) auth.authenticators with
      | none =>
        rw [jsFindIndex_eq_none_iff] at hfind
        simp only [Except.error.injEq, true_iff]
        constructor
        · omega
        · intro a ha
          have := hfind a ha
          simpa using this
      | some i =>
        simp only [Except.ok.injEq]
        constructor
        · intro he
          exact absurd he (by simp)
        · intro ⟨_, hall⟩
          have : jsFindIndex (fun a => a.id == id) auth.authenticators = none := by
            rw [jsFindIndex_eq_none_iff]
            intro a ha
            simpa using hall a ha
          rw [this] at hfind
          exact absurd hfind (by simp)

/-- Witness for C8: on a one-authenticator record an unmatched id still
fails BAD_REQUEST, and on a two-authenticator record an unmatched id
fails NOT_FOUND. -/
theorem C8_witness :
    deleteAuthenticator exAuthOne "zz" = .error .BAD_REQUEST ∧
    deleteAuthenticator exAuthTwo "zz" = .error .NOT_FOUND :=
  ⟨(C8_deleteAuthenticator_guard_before_lookup exAuthOne "zz").1 (by decide),
   (C8_deleteAuthenticator_guard_before_lookup exAuthTwo "zz").2.mpr (by decide)⟩

theorem mem_insertStable (le : α → α → Bool) (a x : α) :
    ∀ l : List α, x ∈ insertStable le a l ↔ x = a ∨ x ∈ l := by
  intro l
  induction l with
  | nil => simp [insertStable]
  | cons b t ih =>
    by_cases h : le a b
    · simp [insertStable, h]
    · simp [insertStable, h, ih]
      tauto

theorem mem_stableSort (le : α → α → Bool) (x : α) :
    ∀ l : List α, x ∈ stableSort le l ↔ x ∈ l := by
  intro l
  induction l with
  | nil => simp [stableSort]
  | cons a t ih =>
    simp [stableSort, mem_insertStable, ih]

theorem length_removeFirst_of_mem (p : α → Bool) :
    ∀ (l : List α), (∃ x ∈ l, p x = true) →
      (removeFirst p l).length + 1 = l.length := by
  intro l
  induction l with
  | nil => intro h; simp at h
  | cons a t ih =>
    intro h
    by_cases hp : p a
    · simp [removeFirst, hp]
    · obtain ⟨x, hx, hpx⟩ := h
      rcases List.mem_cons.mp hx with hxa | hxt
      · subst hxa
        exact absurd hpx hp
      · have hstep : removeFirst p (a :: t) = a :: removeFirst p t := by
          simp [removeFirst, hp]
        rw [hstep, List.length_cons, List.length_cons, ih ⟨x, hxt, hpx⟩]

/-- C9: revokeSession by the owning account always succeeds, and the
splice shape is visible in the result: when the id occurs in the
denormalized session list exactly the first matching entry is removed,
and when it does not occur the list is still shortened by one — splice
with the findIndex sentinel -1 removes the final entry of the (nonempty)
list instead of leaving it unchanged. The list is nonempty for every
authenticated caller because Controller.authenticate upserts the current
session info into it before any handler runs. -/
theorem C9_revokeSession_splice (account : Account) (auth : Auth) (st : Storage)
    (id : String) (session : Session)
    (hsess : st.getSession id = some session)
    (hown : session.account = account.id)
    (hne : auth.sessions ≠ []) :
    ∃ auth2 st2, revokeSession account auth st id = .ok (auth2, st2) ∧
      ((∃ s ∈ auth.sessions, s.id = id) →
        auth2.sessions = removeFirst (fun s => s.id == id) auth.sessions ∧
        auth2.sessions.length + 1 = auth.sessions.length) ∧
      ((∀ s ∈ auth.sessions, s.id ≠ id) →
        auth2.sessions = auth.sessions.dropLast ∧
        auth2.sessions.length + 1 = auth.sessions.length) := by
  have hrun : revokeSession account auth st id =
      .ok (revokeSessionResultAuth auth id,
        revokeSessionResultStorage auth st session id) := by
    unfold revokeSession
    rw [hsess]
    simp [hown, revokeSessionResultAuth, revokeSessionResultStorage]
  refine ⟨_, _, hrun, ?_, ?_⟩
  · intro hpresent
    have hmatch : ∃ s ∈ auth.sessions, (fun s => s.id == id) s = true := by
      obtain ⟨s, hs, hsid⟩ := hpresent
      exact ⟨s, hs, by simp [hsid]⟩
    have hfind : jsFindIndex (fun s => s.id == id) auth.sessions ≠ none := by
      intro hnone
      rw [jsFindIndex_eq_none_iff] at hnone
      obtain ⟨s, hs, hsp⟩ := hmatch
      simp [hnone s hs] at hsp
    obtain ⟨i, hi⟩ := Option.ne_none_iff_exists'.mp hfind
    constructor
    · show spliceRemoveOne auth.sessions (jsFindIndex (fun s => s.id == id) auth.sessions)
        = removeFirst (fun s => s.id == id) auth.sessions
      rw [hi]
      exact eraseIdx_jsFindIndex_eq_removeFirst _ _ _ hi
    · show (spliceRemoveOne auth.sessions
          (jsFindIndex (fun s => s.id == id) auth.sessions)).length + 1
        = auth.sessions.length
      rw [hi]
      show (auth.sessions.eraseIdx i).length + 1 = auth.sessions.length
      rw [eraseIdx_jsFindIndex_eq_removeFirst _ _ _ hi]
      exact length_removeFirst_of_mem _ _ hmatch
  · intro habsent
    have hfind : jsFindIndex (fun s => s.id == id) auth.sessions = none := by
      rw [jsFindIndex_eq_none_iff]
      intro s hs
      simpa using habsent s hs
    constructor
    · show spliceRemoveOne auth.sessions (jsFindIndex (fun s => s.id == id) auth.sessions)
        = auth.sessions.dropLast
      rw [hfind]
      exact spliceRemoveOne_none_eq_dropLast auth.sessions
    · show (spliceRemoveOne auth.sessions
          (jsFindIndex (fun s => s.id == id) auth.sessions)).length + 1
        = auth.sessions.length
      rw [hfind, spliceRemoveOne_none_eq_dropLast auth.sessions, List.length_dropLast]
      have : 0 < auth.sessions.length := List.length_pos.mpr hne
      omega

/-- Witness for C9 at a concrete state: the revoked id is absent from the
two-entry denormalized list, and the call still succeeds with the final
entry removed. -/
theorem C9_witness :
    ∃ pair, revokeSession exAccount exAuthSessions exStorageRevoke "s9" = .ok pair ∧
      pair.1.sessions = exAuthSessions.sessions.dropLast := by
  obtain ⟨auth2, st2, hok, _, habsent⟩ :=
    C9_revokeSession_splice exAccount exAuthSessions exStorageRevoke "s9"
      exSessionStray (by decide) rfl (by decide)
  exact ⟨(auth2, st2), hok, (habsent (by decide)).1⟩

/-- C10: in the authenticator selection of startAuthRequest the
declared-purposes conjunct is skipped exactly for the TestAuthenticator
purpose — for that purpose any active authenticator passing the id and
type selectors is selectable whatever its purposes list, while for every
other purpose selectability additionally requires the purposes list to
contain the requested purpose. -/
theorem C10_testAuthenticator_skips_purpose_filter (defaultAuthTypes : List AuthType)
    (auth : Auth) (p : StartAuthRequestParams) (m : Authenticator)
    (hm : m ∈ allAuthenticators defaultAuthTypes auth) :
    (p.purpose = AuthPurpose.TestAuthenticator →
      (m ∈ availableAuthenticators defaultAuthTypes auth p ↔
        selectorFilters p m = true ∧ m.status = AuthenticatorStatus.Active)) ∧
    (p.purpose ≠ AuthPurpose.TestAuthenticator →
      (m ∈ availableAuthenticators defaultAuthTypes auth p ↔
        selectorFilters p m = true ∧ m.purposes.contains p.purpose = true ∧
        m.status = AuthenticatorStatus.Active)) := by
  constructor
  · intro hp
    rw [availableAuthenticators, mem_stableSort, List.mem_filter]
    simp [authenticatorSelectable, hm, hp]
  · intro hp
    have hne : (p.purpose == AuthPurpose.TestAuthenticator) = false := by
      simp [hp]
    rw [availableAuthenticators, mem_stableSort, List.mem_filter]
    simp [authenticatorSelectable, hm, hne, and_assoc]

/-- Witness for C10: an active authenticator with an empty purposes list
is selectable for the TestAuthenticator purpose. -/
theorem C10_witness :
    { id := "t1", type := AuthType.Totp, purposes := [],
      status := AuthenticatorStatus.Active, lastUsed := none : Authenticator } ∈
      availableAuthenticators [] { email := "a@x.co", authenticators :=
        [{ id := "t1", type := AuthType.Totp, purposes := [],
           status := AuthenticatorStatus.Active, lastUsed := none }] }
        { email := "a@x.co", purpose := AuthPurpose.TestAuthenticator } :=
  ((C10_testAuthenticator_skips_purpose_filter [] _ _ _ (by simp [allAuthenticators])).1
    rfl).mpr (by decide)

/-- C4 counterexample: a request whose timestamp lies 3600001 ms in the
future of now = 0 has absolute clock difference above maxRequestAge =
3600000, so the claim demands MAX_REQUEST_AGE_EXCEEDED, yet the code
computes the signed age now - time = -3600001, the one-sided comparison
age > maxRequestAge is false, and the request is accepted. The window is
not symmetric. -/
theorem C4_counterexample :
    ((0 : Int) - 3600001).natAbs > 3600000 ∧
    authenticate 3600000 0 (fun _ => true) none exStorageAuth exReqFuture ≠
      Except.error ErrorCode.MAX_REQUEST_AGE_EXCEEDED := by
  constructor
  · decide
  · decide

/-- C4 as amended: with the earlier guards passing (session found, not
expired, signature valid), the session authenticator rejects with
MAX_REQUEST_AGE_EXCEEDED exactly when the signed age now - time exceeds
maxRequestAge — the window is one-sided, so a timestamp at exactly the
boundary (or anywhere in the future) is not rejected by this check and
one unit over the boundary in the past is rejected. -/
theorem C4_request_age_one_sided (maxRequestAge now : Int)
    (verify : Session → Bool) (device : Option String) (st : Storage)
    (req : Request) (reqAuth : RequestAuth) (session : Session)
    (hreq : req.auth = some reqAuth)
    (hsess : st.getSession reqAuth.session = some session)
    (hexp : sessionExpired session.expires now = false)
    (hver : verify session = true) :
    authenticate maxRequestAge now verify device st req =
        Except.error ErrorCode.MAX_REQUEST_AGE_EXCEEDED ↔
      now - reqAuth.time > maxRequestAge := by
  by_cases hage : now - reqAuth.time > maxRequestAge
  · simp [authenticate, hreq, hsess, hexp, hver, hage]
  · simp only [authenticate, hreq, hsess, hexp, hver, hage]
    cases hacc : st.getAccount session.account <;>
      simp [hacc, hage]

/-- Witness for C4 as amended: at maxRequestAge 3600000 and now 3600000 a
request stamped 0 sits exactly at the boundary and is not rejected by the
age check, while a request stamped -1 is one unit over and is rejected. -/
theorem C4_witness :
    authenticate 3600000 3600000 (fun _ => true) none exStorageAuth exReqZero ≠
        Except.error ErrorCode.MAX_REQUEST_AGE_EXCEEDED ∧
    authenticate 3600000 3600000 (fun _ => true) none exStorageAuth exReqStale =
        Except.error ErrorCode.MAX_REQUEST_AGE_EXCEEDED := by
  constructor
  · intro h
    have hb := (C4_request_age_one_sided 3600000 3600000 (fun _ => true) none
      exStorageAuth exReqZero { session := "sess1", time := 0 } exSessionAuth
      rfl (by decide) rfl rfl).mp h
    simp at hb
  · exact (C4_request_age_one_sided 3600000 3600000 (fun _ => true) none
      exStorageAuth exReqStale { session := "sess1", time := -1 } exSessionAuth
      rfl (by decide) rfl rfl).mpr (by decide)

theorem getAuthRecord_email (auths : List Auth) (email : String) :
    (getAuthRecord auths email).email = email := by
  unfold getAuthRecord
  cases hf : auths.find? (fun a => a.email == email) with
  | none => rfl
  | some a =>
    have := List.find?_some hf
    simpa using this

theorem createSessionAuthUpdate_email (a : Auth) (s : Session) (ss : SRPSession) :
    (createSessionAuthUpdate a s ss).email = a.email := rfl

theorem createSessionTrustDevice_email (a : Auth) (d : Option String) (b : Bool) :
    (createSessionTrustDevice a d b).email = a.email := by
  cases d with
  | none => rfl
  | some x =>
    by_cases hc : (!(a.trustedDevices.any fun td => equalCT td x) && b) = true <;>
      simp [createSessionTrustDevice, hc]

theorem createSessionTrustDevice_srpSessions (a : Auth) (d : Option String) (b : Bool) :
    (createSessionTrustDevice a d b).srpSessions = a.srpSessions := by
  cases d with
  | none => rfl
  | some x =>
    by_cases hc : (!(a.trustedDevices.any fun td => equalCT td x) && b) = true <;>
      simp [createSessionTrustDevice, hc]

theorem createSession_ok_shape (srp : SRPFuns) (newSessionId : String) (now : Int)
    (device : Option String) (st : Storage) (p : CreateSessionParams)
    (acc : Account) (srpState : SRPSession)
    (hacc : st.getAccount p.account = some acc)
    (hfind : (getAuthRecord st.auths acc.email).srpSessions.find?
      (fun s => s.id == p.srpId) = some srpState)
    (hm : equalCT p.M (srp.M1 srpState p.A) = true) :
    createSession srp newSessionId now device st p =
      (Except.ok
        { mintedSession srp newSessionId now device p srpState with key := none },
       Storage.saveAuth
         ((st.saveSession (mintedSession srp newSessionId now device p srpState)).saveAccount acc)
         (createSessionTrustDevice
           (createSessionAuthUpdate (getAuthRecord st.auths acc.email)
             (mintedSession srp newSessionId now device p srpState) srpState)
           device p.addTrustedDevice)) := by
  simp [createSession, hacc, hfind, hm]

/-- C2: every successful createSession call returns an outbound session
object with no key, while the session entity persisted in storage under
the same id carries the negotiated shared signing key. -/
theorem C2_createSession_strips_key (srp : SRPFuns) (newSessionId : String)
    (now : Int) (device : Option String) (st : Storage) (p : CreateSessionParams)
    (out : Session) (st2 : Storage)
    (h : createSession srp newSessionId now device st p = (.ok out, st2)) :
    out.key = none ∧
    ∃ stored, st2.getSession out.id = some stored ∧ stored.key.isSome = true := by
  cases hacc : st.getAccount p.account with
  | none => simp [createSession, hacc] at h
  | some acc =>
    cases hfind : (getAuthRecord st.auths acc.email).srpSessions.find?
        (fun s => s.id == p.srpId) with
    | none => simp [createSession, hacc, hfind] at h
    | some srpState =>
      by_cases hm : equalCT p.M (srp.M1 srpState p.A)
      · rw [createSession_ok_shape srp newSessionId now device st p acc srpState
          hacc hfind hm] at h
        simp only [Prod.mk.injEq, Except.ok.injEq] at h
        obtain ⟨h1, h2⟩ := h
        subst h1
        subst h2
        refine ⟨rfl, mintedSession srp newSessionId now device p srpState, ?_, rfl⟩
        exact find?_upsertBy Session.id _ st.sessions _ rfl
      · have hm2 : equalCT p.M (srp.M1 srpState p.A) = false := by
          simpa using hm
        simp [createSession, hacc, hfind, hm2] at h

/-- Witness for C2: a concrete successful run whose outbound session has
no key while the stored session entity keeps the key k1. -/
theorem C2_witness :
    ∃ out st2,
      createSession exSRPFuns "sess2" 0 none exStorageSRP exParamsGood = (.ok out, st2) ∧
      out.key = none ∧
      ∃ stored, st2.getSession out.id = some stored ∧ stored.key.isSome = true := by
  obtain ⟨out, st2, h⟩ : ∃ out st2,
      createSession exSRPFuns "sess2" 0 none exStorageSRP exParamsGood = (.ok out, st2) :=
    ⟨_, _, rfl⟩
  exact ⟨out, st2, h,
    C2_createSession_strips_key exSRPFuns "sess2" 0 none exStorageSRP exParamsGood out st2 h⟩

/-- C3: with the account resolving, both createSession failure modes —
no pending handshake with the given id, and a client proof failing the
constant-time comparison — return the same INVALID_CREDENTIALS (never
NOT_FOUND) and leave the storage untouched, so the pending handshake
stays in place and is retryable; the handshake is filtered out of the
saved auth record only on success. -/
theorem C3_createSession_failure_modes (srp : SRPFuns) (newSessionId : String)
    (now : Int) (device : Option String) (st : Storage) (p : CreateSessionParams)
    (acc : Account)
    (hacc : st.getAccount p.account = some acc) :
    ((getAuthRecord st.auths acc.email).srpSessions.find?
        (fun s => s.id == p.srpId) = none →
      createSession srp newSessionId now device st p =
        (.error .INVALID_CREDENTIALS, st)) ∧
    (∀ srpState,
      (getAuthRecord st.auths acc.email).srpSessions.find?
          (fun s => s.id == p.srpId) = some srpState →
      equalCT p.M (srp.M1 srpState p.A) = false →
      createSession srp newSessionId now device st p =
        (.error .INVALID_CREDENTIALS, st)) ∧
    (∀ out st2, createSession srp newSessionId now device st p = (.ok out, st2) →
      ∀ auth2, st2.auths.find? (fun a => a.email == acc.email) = some auth2 →
        ∀ s ∈ auth2.srpSessions, s.id ≠ p.srpId) := by
  refine ⟨?_, ?_, ?_⟩
  · intro hfind
    simp [createSession, hacc, hfind]
  · intro srpState hfind hm
    simp [createSession, hacc, hfind, hm]
  · intro out st2 h auth2 hfound s hs
    cases hfind : (getAuthRecord st.auths acc.email).srpSessions.find?
        (fun s => s.id == p.srpId) with
    | none => simp [createSession, hacc, hfind] at h
    | some srpState =>
      by_cases hm : equalCT p.M (srp.M1 srpState p.A)
      · rw [createSession_ok_shape srp newSessionId now device st p acc srpState
          hacc hfind hm] at h
        simp only [Prod.mk.injEq, Except.ok.injEq] at h
        obtain ⟨h1, h2⟩ := h
        subst h2
        have hemail :
            (createSessionTrustDevice
              (createSessionAuthUpdate (getAuthRecord st.auths acc.email)
                (mintedSession srp newSessionId now device p srpState) srpState)
              device p.addTrustedDevice).email = acc.email := by
          rw [createSessionTrustDevice_email, createSessionAuthUpdate_email,
            getAuthRecord_email]
        simp only [Storage.saveAuth, Storage.saveSession, Storage.saveAccount] at hfound
        rw [find?_upsertBy Auth.email _ st.auths _ hemail] at hfound
        injection hfound with hfound
        subst hfound
        rw [createSessionTrustDevice_srpSessions] at hs
        have hmem := List.mem_filter.mp hs
        have hid : srpState.id = p.srpId := by
          have := List.find?_some hfind
          simpa using this
        have hne := hmem.2
        simp only [bne_iff_ne, ne_eq] at hne
        rw [← hid]
        exact hne
      · have hm2 : equalCT p.M (srp.M1 srpState p.A) = false := by
          simpa using hm
        simp [createSession, hacc, hfind, hm2] at h

/-- Witness for C3: at a concrete state, a missing handshake id and a
forged proof both return INVALID_CREDENTIALS with the storage unchanged. -/
theorem C3_witness :
    createSession exSRPFuns "sess2" 0 none exStorageSRP exParamsNoSrp =
        (.error .INVALID_CREDENTIALS, exStorageSRP) ∧
    createSession exSRPFuns "sess2" 0 none exStorageSRP exParamsBadProof =
        (.error .INVALID_CREDENTIALS, exStorageSRP) :=
  ⟨(C3_createSession_failure_modes exSRPFuns "sess2" 0 none exStorageSRP
      exParamsNoSrp exAccount (by decide)).1 (by decide),
   (C3_createSession_failure_modes exSRPFuns "sess2" 0 none exStorageSRP
      exParamsBadProof exAccount (by decide)).2.1 exSRPState (by decide) (by decide)⟩

/-- C1: for each of updateAccount, updateOrg and updateVault, whenever the
run reaches the revision comparison (for updateAccount it is the first
check; for updateOrg the caller must have a non-frozen provisioning entry;
for updateVault the pre-revision guards must pass) a payload revision
differing from the stored revision fails with OUTDATED_REVISION — with no
condition on the payload content, which may be identical to the stored
content. -/
theorem C1_stale_revision_rejected
    (newRevA : String) (nowA : Int) (account : Account) (pA : AccountPayload)
    (provO : Provisioning) (accountO : Account) (orgO : Org) (newRevO : String)
    (nowO : Int) (pO : OrgPayload)
    (access : OrgAccess) (provV : Provisioning) (accountV : Account)
    (vaultV : Vault) (orgsV : List Org) (newRevV : String) (nowV : Int)
    (pV : VaultPayload)
    (hA : pA.revision ≠ account.revision)
    (hOok : updateOrgReachesRevisionCheck provO pO.id)
    (hO : pO.revision ≠ orgO.revision)
    (hVok : updateVaultReachesRevisionCheck access provV accountV vaultV orgsV)
    (hV : pV.revision ≠ vaultV.revision) :
    updateAccount newRevA nowA account pA = .error .OUTDATED_REVISION ∧
    updateOrg provO accountO orgO newRevO nowO pO = .error .OUTDATED_REVISION ∧
    updateVault access provV accountV vaultV orgsV newRevV nowV pV =
      .error .OUTDATED_REVISION := by
  refine ⟨?_, ?_, ?_⟩
  · simp [updateAccount, hA]
  · obtain ⟨op, hfind, hfrozen⟩ := hOok
    have hfr : (op.status == ProvisioningStatus.Frozen) = false := by
      simp [hfrozen]
    simp [updateOrg, hfind, hfr, hO]
  · unfold updateVaultReachesRevisionCheck at hVok
    cases hvorg : vaultV.org with
    | none =>
      rw [hvorg] at hVok
      obtain ⟨hown, hfroz⟩ := hVok
      have hfr : (provV.account.status == ProvisioningStatus.Frozen) = false := by
        simp [hfroz]
      simp [updateVault, hvorg, hown, hfr, hV]
    | some orgId =>
      rw [hvorg] at hVok
      obtain ⟨org, hfindorg, hsusp, hread, hwrite, hfroz⟩ := hVok
      have hfr : ((match provV.orgs.find? (fun o => o.orgId == org.id) with
          | some op => op.status
          | none => provV.account.status) == ProvisioningStatus.Frozen) = false := by
        simp [hfroz]
      simp [updateVault, hvorg, hfindorg, hsusp, hread, hwrite, hfr, hV]

/-- Witness for C1 at concrete records: each payload is identical to the
stored content of its entity and carries the stale revision r1 against
the stored r2, and each of the three updates fails OUTDATED_REVISION. -/
theorem C1_witness :
    updateAccount "r3" 0 exAccC1 exPayloadAccC1 = .error .OUTDATED_REVISION ∧
    updateOrg exProvC1 exAccC1 exOrgC1 "r3" 0 exOrgPayloadC1 =
      .error .OUTDATED_REVISION ∧
    updateVault exAccessAll { } exAccC1 exVaultC1 [] "r3" 0 exVaultPayloadC1 =
      .error .OUTDATED_REVISION := by
  exact C1_stale_revision_rejected "r3" 0 exAccC1 exPayloadAccC1
    exProvC1 exAccC1 exOrgC1 "r3" 0 exOrgPayloadC1
    exAccessAll { } exAccC1 exVaultC1 [] "r3" 0 exVaultPayloadC1
    (by decide) ⟨{ orgId := "org1" }, by decide, by decide⟩ (by decide)
    (by exact ⟨rfl, by decide⟩) (by decide)

theorem org_role_any_false (members : List OrgMember) (aid : String)
    (q : OrgMember → Bool)
    (h : (members.any fun m => m.id == aid) = false) :
    (members.any fun m => m.id == aid && q m) = false := by
  rw [List.any_eq_false] at h ⊢
  intro m hm
  have h2 := h m hm
  simp only [Bool.and_eq_true, not_and]
  intro he
  exact absurd he h2

/-- C5 counterexample: an account that is neither a member nor the owner
of the target org calls updateOrg and receives PROVISIONING_NOT_ALLOWED
(no provisioning entry for the org exists for the caller), not the
NotFound the claim demands; updateOrg has no existence-hiding guard at
all. -/
theorem C5_counterexample :
    exOrgC1.isMemberId exOutsider.id = false ∧
    exOrgC1.owner ≠ exOutsider.id ∧
    updateOrg { } exOutsider exOrgC1 "r3" 0 exOrgPayloadC1 =
      .error .PROVISIONING_NOT_ALLOWED := by
  refine ⟨by decide, by decide, by decide⟩

/-- C5 as amended: a caller that is neither a member nor the owner of the
target org always fails, but with PROVISIONING_NOT_ALLOWED (no or frozen
provisioning entry), OUTDATED_REVISION (stale payload revision) or
INSUFFICIENT_PERMISSIONS (the admin guard), depending on which guard
fires first — never with NOT_FOUND. -/
theorem C5_updateOrg_nonmember_never_notfound (prov : Provisioning)
    (account : Account) (org : Org) (newRev : String) (now : Int)
    (p : OrgPayload)
    (hnotowner : org.owner ≠ account.id)
    (hnotmember : org.isMemberId account.id = false) :
    ∃ e, updateOrg prov account org newRev now p = .error e ∧
      (e = .PROVISIONING_NOT_ALLOWED ∨ e = .OUTDATED_REVISION ∨
        e = .INSUFFICIENT_PERMISSIONS) ∧
      e ≠ .NOT_FOUND := by
  have ho : org.isOwnerId account.id = false :=
    org_role_any_false org.members account.id _ hnotmember
  have ha : org.isAdminId account.id = false :=
    org_role_any_false org.members account.id _ hnotmember
  have hown : (org.owner == account.id) = false := by
    simp [hnotowner]
  cases hfind : prov.orgs.find? (fun o => o.orgId == p.id) with
  | none =>
    refine ⟨.PROVISIONING_NOT_ALLOWED, ?_, Or.inl rfl, by decide⟩
    simp [updateOrg, hfind]
  | some op =>
    by_cases hfr : (op.status == ProvisioningStatus.Frozen) = true
    · refine ⟨.PROVISIONING_NOT_ALLOWED, ?_, Or.inl rfl, by decide⟩
      simp [updateOrg, hfind, hfr]
    · have hfr2 : (op.status == ProvisioningStatus.Frozen) = false := by
        simpa using hfr
      by_cases hrev : (p.revision == org.revision) = true
      · refine ⟨.INSUFFICIENT_PERMISSIONS, ?_, Or.inr (Or.inr rfl), by decide⟩
        simp [updateOrg, hfind, hfr2, hrev, ho, ha, hown]
      · have hrev2 : (p.revision == org.revision) = false := by
          simpa using hrev
        refine ⟨.OUTDATED_REVISION, ?_, Or.inr (Or.inl rfl), by decide⟩
        simp [updateOrg, hfind, hfr2, hrev2]

/-- Witness for C5 as amended at the concrete outsider account. -/
theorem C5_witness :
    ∃ e, updateOrg { } exOutsider exOrgC1 "r3" 0 exOrgPayloadC1 = .error e ∧
      (e = .PROVISIONING_NOT_ALLOWED ∨ e = .OUTDATED_REVISION ∨
        e = .INSUFFICIENT_PERMISSIONS) ∧
      e ≠ .NOT_FOUND :=
  C5_updateOrg_nonmember_never_notfound { } exOutsider exOrgC1 "r3" 0
    exOrgPayloadC1 (by decide) (by decide)

/-- C6 counterexample: on the trusted-device Login fast path the request
is indeed auto-verified and provisioning attached, but the provider hook
initAuthRequest is still invoked (the second component of the run is
true), contradicting the claim that the authenticator provider is not
invoked. -/
theorem C6_counterexample :
    exRunC6.2 = true ∧
    (okResponse? exRunC6.1).map StartAuthRequestResponse.requestStatus =
      some AuthRequestStatus.Verified ∧
    (okResponse? exRunC6.1).map StartAuthRequestResponse.provisioning =
      some (some ProvisioningStatus.Active) := by
  refine ⟨by decide, by decide, by decide⟩

/-- C6 as amended: for a startAuthRequest with purpose Login on an Auth
record with an active account, from a device on the trusted-device list,
with an authenticator selectable at the requested index, the created
request is immediately marked Verified and the account status and
provisioning status are attached to the response — while the provider
initAuthRequest hook is nonetheless invoked (only provider-side
verification is skipped). -/
theorem C6_trusted_device_fast_path (defaultAuthTypes : List AuthType)
    (initData : Authenticator → String) (provAccount : AccountProvisioning)
    (newRequestId newToken : String) (now : Int) (d : String)
    (auths : List Auth) (p : StartAuthRequestParams) (auth : Auth)
    (m : Authenticator)
    (hauth : getAuthRecord auths p.email = auth)
    (hp : p.purpose = AuthPurpose.Login)
    (hacct : auth.accountStatus = AccountStatus.Active)
    (hd : (auth.trustedDevices.any fun id => id == d) = true)
    (hm : (availableAuthenticators defaultAuthTypes auth p)[p.authenticatorIndex.getD 0]? =
      some m) :
    (startAuthRequest defaultAuthTypes initData provAccount newRequestId newToken
        now (some d) auths p).2 = true ∧
    (okResponse? (startAuthRequest defaultAuthTypes initData provAccount
        newRequestId newToken now (some d) auths p).1).map
      StartAuthRequestResponse.requestStatus = some AuthRequestStatus.Verified ∧
    (okResponse? (startAuthRequest defaultAuthTypes initData provAccount
        newRequestId newToken now (some d) auths p).1).map
      StartAuthRequestResponse.accountStatus = some (some AccountStatus.Active) ∧
    (okResponse? (startAuthRequest defaultAuthTypes initData provAccount
        newRequestId newToken now (some d) auths p).1).map
      StartAuthRequestResponse.provisioning = some (some provAccount.status) := by
  refine ⟨?_, ?_, ?_, ?_⟩ <;>
    simp [startAuthRequest, hauth, hm, hp, hacct, hd, okResponse?]

/-- Witness for C6 as amended at the concrete trusted-device run. -/
theorem C6_witness :
    exRunC6.2 = true ∧
    (okResponse? exRunC6.1).map StartAuthRequestResponse.requestStatus =
      some AuthRequestStatus.Verified ∧
    (okResponse? exRunC6.1).map StartAuthRequestResponse.accountStatus =
      some (some AccountStatus.Active) ∧
    (okResponse? exRunC6.1).map StartAuthRequestResponse.provisioning =
      some (some ProvisioningStatus.Active) := by
  exact C6_trusted_device_fast_path [] (fun _ => "pdata") { } "req1" "tok1" 0
    "d1" [exAuthC6] exParamsC6 exAuthC6 exAuthenticatorC6
    (by decide) rfl rfl (by decide) (by decide)

end Padloc
